import Mathlib

/-!
Verification development for the `yew-virtual-scroller` crate
(`src/lib.rs`): a Yew component that renders only the visible window of a
large, uniformly-sized list.

The embedding below translates the component state, the message handler
`VirtualScroller::update`, the props handler `VirtualScroller::change`
and the spacer computation of `VirtualScroller::view` into Lean.

Modelling conventions:
- Rust `f64` values (`row_height`, `viewport_height`, coordinates) are
  modelled as exact rationals `ℚ`; `viewport.scroll_top()` returns an
  `i32` in `web_sys` and is modelled as `Int`.
- `usize` subtraction (`self.props.items.len() - start_node`) panics on
  underflow in debug builds (and wraps in release builds, after which the
  slice indexing in `view` panics); both are modelled as the explicit
  panic value `Panic.usizeUnderflow`.
- `self.viewport_ref.cast::<Element>().unwrap()` panics when the node
  reference has no backing element; the backing element is modelled as an
  `Option ViewportEl` field and the unwrap failure as `Panic.unwrapNone`.
- Fallible handlers therefore return `Except Panic _`.
- The item type `T` stays a type parameter, as in the Rust generic
  component; `Classes` (an ordered collection of CSS class strings
  compared with `PartialEq`) is modelled as `List String`.
-/

namespace VirtualScroller

/-- Outcome of a Rust panic reachable in `VirtualScroller::update`. -/
inductive Panic where
  /-- `.unwrap()` of `viewport_ref.cast::<Element>()` when the node
  reference resolves to no element. -/
  | unwrapNone
  /-- the `usize` subtraction `items.len() - start_node` underflowing. -/
  | usizeUnderflow
deriving DecidableEq, Repr

/-- The backing `Element` of the viewport `NodeRef`, reduced to the two
measurements `update` reads from it: `scroll_top()` (an `i32`) and
`client_height()` (an `i32`). -/
structure ViewportEl where
  scroll_top : Int
  client_height : Int
deriving DecidableEq, Repr

/-- `struct ContentWindow { start_y: f64, visible_range: Range<usize> }`.
The half-open `Range<usize>` is split into its `start` and `end` bounds. -/
structure ContentWindow where
  start_y : ℚ
  visible_start : Nat
  visible_end : Nat
deriving DecidableEq, Repr

/-- `struct Props<T> { items: Rc<Vec<T>>, row_height: f64, class: Classes }`.
`Rc<Vec<T>>: PartialEq` compares the vectors elementwise, so `items` is a
`List T`; `class` is named `cssClass` because `class` is reserved in Lean. -/
structure Props (T : Type) where
  items : List T
  row_height : ℚ
  cssClass : List String
deriving DecidableEq, Repr

/-- `enum Msg` of the component. -/
inductive Msg where
  | CalculateViewport
  | UpdateViewportHeight (height : ℚ)
  | CalculateWindowContent
deriving DecidableEq, Repr

/-- The fields of `VirtualScroller<T>` that the handlers touch: `props`,
`viewport_height`, `content_window`, and the backing element currently
resolved by `viewport_ref` (`none` before the node is attached). -/
structure ScrollerState (T : Type) where
  props : Props T
  viewport_height : ℚ
  content_window : Option ContentWindow
  viewportEl : Option ViewportEl
deriving DecidableEq, Repr

/-- The `start_node` expression of the `Msg::CalculateWindowContent` arm:
`max(0, (scroll_top / row_height).floor() as isize - node_padding as isize) as usize`. -/
def startNode (scroll_top : Int) (row_height : ℚ) (node_padding : Nat) : Nat :=
  (max 0 (⌊(scroll_top : ℚ) / row_height⌋ - (node_padding : Int))).toNat

/-- Body of the `Msg::CalculateWindowContent` arm of
`VirtualScroller::update`, as a function of the values it reads:
`viewport.scroll_top()`, `self.viewport_height`, `self.props.row_height`
and `self.props.items.len()`. `node_padding` is hardcoded to `0` as in the
source. The `usize` subtraction `items.len() - start_node` is guarded by
an explicit underflow check standing for the Rust panic. -/
def calculateWindowContent (scroll_top : Int) (viewport_height row_height : ℚ)
    (itemsLen : Nat) : Except Panic ContentWindow :=
  let node_padding : Nat := 0
  let start_node : Nat := startNode scroll_top row_height node_padding
  if itemsLen < start_node then
    Except.error Panic.usizeUnderflow
  else
    let total_visible : Nat :=
      min ((⌈viewport_height / row_height⌉).toNat + 2 * node_padding)
        (itemsLen - start_node)
    let start_y : ℚ := (start_node : ℚ) * row_height
    let end_node : Nat := start_node + total_visible
    Except.ok { start_y := start_y, visible_start := start_node, visible_end := end_node }

/-- `VirtualScroller::update`. Returns the next state together with the
`ShouldRender` boolean, or the panic the handler hits. -/
def update {T : Type} (s : ScrollerState T) (msg : Msg) :
    Except Panic (ScrollerState T × Bool) :=
  match msg with
  | Msg.CalculateViewport =>
      match s.viewportEl with
      | none => Except.error Panic.unwrapNone
      | some el =>
          Except.ok ({ s with viewport_height := (el.client_height : ℚ) }, true)
  | Msg.UpdateViewportHeight height =>
      Except.ok ({ s with viewport_height := height }, true)
  | Msg.CalculateWindowContent =>
      match s.viewportEl with
      | none => Except.error Panic.unwrapNone
      | some el =>
          match calculateWindowContent el.scroll_top s.viewport_height
              s.props.row_height s.props.items.length with
          | Except.error p => Except.error p
          | Except.ok cw =>
              Except.ok ({ s with content_window := some cw }, true)

/-- `VirtualScroller::change`. Returns the next state, the `ShouldRender`
boolean, and the list of messages sent through `self.link`. -/
def change {T : Type} [DecidableEq T] (s : ScrollerState T) (newProps : Props T) :
    ScrollerState T × Bool × List Msg :=
  if s.props ≠ newProps then
    ({ s with props := newProps },
      decide (s.props.cssClass ≠ newProps.cssClass),
      [Msg.CalculateWindowContent])
  else
    (s, false, [])

/-- The spacer height computed in `VirtualScroller::view`:
`total_content_height = items.len() as f64 * row_height`. -/
def totalContentHeight (itemsLen : Nat) (row_height : ℚ) : ℚ :=
  (itemsLen : ℚ) * row_height

/-- Reference window from the specification (§4.1), written over integers
exactly as the spec states it, with `padding = 0`:
`startIndex = max(0, floor(scrollOffset / rowHeight) - padding)`,
`visibleCount = min(ceil(viewportHeight / rowHeight) + 2*padding, itemCount - startIndex)`,
`endIndex = startIndex + visibleCount`, `startY = startIndex * rowHeight`,
`totalHeight = itemCount * rowHeight`. -/
structure SpecWindow where
  startIndex : Int
  visibleCount : Int
  endIndex : Int
  startY : ℚ
  totalHeight : ℚ
deriving DecidableEq, Repr

/-- The spec reference computation `compute(scrollOffset, viewportHeight,
rowHeight, itemCount, padding=0)` of §4.1 (spec-side definition, to be
compared with `calculateWindowContent`). -/
def specWindow (scrollOffset viewportHeight rowHeight : ℚ) (itemCount : Nat) :
    SpecWindow :=
  let startIndex : Int := max 0 ⌊scrollOffset / rowHeight⌋
  let visibleCount : Int :=
    min ⌈viewportHeight / rowHeight⌉ ((itemCount : Int) - startIndex)
  { startIndex := startIndex
    visibleCount := visibleCount
    endIndex := startIndex + visibleCount
    startY := (startIndex : ℚ) * rowHeight
    totalHeight := (itemCount : ℚ) * rowHeight }

/-! ## General lemmas about the embedded handlers -/

/-- With `node_padding = 0` the `start_node` expression is just the
truncated floor of `scroll_top / row_height`. -/
theorem startNode_zero_padding (t : Int) (rh : ℚ) :
    startNode t rh 0 = (⌊(t : ℚ) / rh⌋).toNat := by
  rw [startNode]
  omega

/-- `Msg::CalculateWindowContent` hits the `usize` underflow when the
computed `start_node` lies beyond the current item count. -/
theorem calculateWindowContent_underflow (t : Int) (vh rh : ℚ) (len : Nat)
    (h : len < startNode t rh 0) :
    calculateWindowContent t vh rh len = Except.error Panic.usizeUnderflow := by
  rw [calculateWindowContent]
  simp [h]

/-- Value of `Msg::CalculateWindowContent` when the `usize` subtraction
does not underflow. -/
theorem calculateWindowContent_ok (t : Int) (vh rh : ℚ) (len : Nat)
    (h : startNode t rh 0 ≤ len) :
    calculateWindowContent t vh rh len =
      Except.ok { start_y := (startNode t rh 0 : ℚ) * rh,
                  visible_start := startNode t rh 0,
                  visible_end := startNode t rh 0 +
                    min (⌈vh / rh⌉).toNat (len - startNode t rh 0) } := by
  rw [calculateWindowContent]
  simp [Nat.not_lt.mpr h]

/-! ## Claim theorems -/

/-- Claim C1. The claim states that after the item list shrinks below the
scroll position, `Msg::CalculateWindowContent` clamps the window so that
`endIndex <= itemCount` and the subtraction `itemCount - startIndex` never
underflows. The code does not clamp: evaluating `update` on a state that
was scrolled 100 rows deep (`scroll_top = 3200`, `row_height = 32`) after
the list was replaced by one of 5 items shows the `usize` subtraction
`items.len() - start_node` (that is, `5 - 100`) underflowing: a panic in
debug builds, and in release builds a wrapped length whose resulting range
makes the slice `&items[range]` in `view` panic. -/
theorem c1_shrunken_list_underflows :
    update (T := Nat)
      { props := { items := [0, 1, 2, 3, 4], row_height := 32, cssClass := [] },
        viewport_height := 600,
        content_window := some { start_y := 3200, visible_start := 100, visible_end := 119 },
        viewportEl := some { scroll_top := 3200, client_height := 600 } }
      Msg.CalculateWindowContent = Except.error Panic.usizeUnderflow := by
  have hfl : ⌊((3200 : Int) : ℚ) / 32⌋ = 100 := by
    rw [show ((3200 : Int) : ℚ) = 3200 by norm_num, Int.floor_eq_iff]; norm_num
  have h5 : (5 : Nat) < startNode 3200 32 0 := by
    rw [startNode_zero_padding, hfl]
    norm_num
  simp only [update, List.length_cons, List.length_nil]
  rw [calculateWindowContent_underflow 3200 600 32 5 h5]

/-- Claim C4. The claim states that with `itemCount = 0` the window
computation yields the empty window for every `scrollOffset ≥ 0`. The
code underflows instead as soon as `scroll_top ≥ row_height`: with an
empty item list and `scroll_top = 32`, `row_height = 32`, the subtraction
`items.len() - start_node` is `0 - 1` and panics (debug) or wraps
(release). -/
theorem c4_empty_list_underflows :
    update (T := Nat)
      { props := { items := [], row_height := 32, cssClass := [] },
        viewport_height := 600,
        content_window := none,
        viewportEl := some { scroll_top := 32, client_height := 600 } }
      Msg.CalculateWindowContent = Except.error Panic.usizeUnderflow := by
  have hfl : ⌊((32 : Int) : ℚ) / 32⌋ = 1 := by
    rw [show ((32 : Int) : ℚ) = 32 by norm_num, Int.floor_eq_iff]; norm_num
  have h0 : (0 : Nat) < startNode 32 32 0 := by
    rw [startNode_zero_padding, hfl]
    norm_num
  simp only [update, List.length_nil]
  rw [calculateWindowContent_underflow 32 600 32 0 h0]

/-- Claim C5, counterexample. The claim states that a window computation
requested while the viewport node reference resolves to no element is
deferred and the handler does not fail. Evaluating `update` on a concrete
state with no backing element shows the handler failing instead: the
`viewport_ref.cast::<Element>().unwrap()` panics. -/
theorem c5_counterexample :
    update (T := Nat)
      { props := { items := [0], row_height := 32, cssClass := [] },
        viewport_height := 0,
        content_window := none,
        viewportEl := none }
      Msg.CalculateWindowContent = Except.error Panic.unwrapNone := by
  simp [update]

/-- Claim C5, amended. If `Msg::CalculateViewport` or
`Msg::CalculateWindowContent` is processed while the viewport node
reference resolves to no element, the handler panics on the `unwrap` of
the node cast (producing no window and no successor state); the
computation is not silently deferred. -/
theorem c5_no_element_panics {T : Type} (s : ScrollerState T)
    (h : s.viewportEl = none) :
    update s Msg.CalculateViewport = Except.error Panic.unwrapNone ∧
    update s Msg.CalculateWindowContent = Except.error Panic.unwrapNone := by
  constructor <;> simp [update, h]

/-- Witness for `c5_no_element_panics` at a concrete state. -/
theorem c5_witness :
    update (T := Nat)
      { props := { items := [], row_height := 1, cssClass := [] },
        viewport_height := 0,
        content_window := none,
        viewportEl := none }
      Msg.CalculateViewport = Except.error Panic.unwrapNone ∧
    update (T := Nat)
      { props := { items := [], row_height := 1, cssClass := [] },
        viewport_height := 0,
        content_window := none,
        viewportEl := none }
      Msg.CalculateWindowContent = Except.error Panic.unwrapNone :=
  c5_no_element_panics _ rfl

/-- Claim C7, counterexample. The claim states that a props change
touching only the cosmetic `class` attribute skips window recomputation.
On a concrete change where the items and the row height are unchanged and
only the class differs, `VirtualScroller::change` still sends
`Msg::CalculateWindowContent` through the link, so the window is
recomputed rather than skipped. -/
theorem c7_counterexample :
    (change (T := Nat)
        { props := { items := [1, 2, 3], row_height := 32, cssClass := ["a"] },
          viewport_height := 600,
          content_window := none,
          viewportEl := some { scroll_top := 0, client_height := 600 } }
        { items := [1, 2, 3], row_height := 32, cssClass := ["b"] }).2.2 =
      [Msg.CalculateWindowContent] ∧
    (change (T := Nat)
        { props := { items := [1, 2, 3], row_height := 32, cssClass := ["a"] },
          viewport_height := 600,
          content_window := none,
          viewportEl := some { scroll_top := 0, client_height := 600 } }
        { items := [1, 2, 3], row_height := 32, cssClass := ["b"] }).2.2 ≠
      ([] : List Msg) := by
  constructor <;> simp [change]

/-- Claim C7, amended. On every props change (a new props value unequal
to the stored one), `VirtualScroller::change` stores the new props and
queues a `Msg::CalculateWindowContent` recomputation — including changes
that only touch the cosmetic `class` attribute; the handler returns
`true` (immediate re-render) exactly when the class differs, and `false`
otherwise (the re-render then happens when the queued recomputation is
processed). -/
theorem c7_change_always_recomputes {T : Type} [DecidableEq T]
    (s : ScrollerState T) (p : Props T) (h : s.props ≠ p) :
    change s p =
      ({ s with props := p },
        decide (s.props.cssClass ≠ p.cssClass),
        [Msg.CalculateWindowContent]) := by
  rw [change, if_pos h]

/-- Witness for `c7_change_always_recomputes` at a concrete cosmetic-only
props change. -/
theorem c7_witness :
    change (T := Nat)
      { props := { items := [1, 2, 3], row_height := 32, cssClass := ["a"] },
        viewport_height := 600,
        content_window := none,
        viewportEl := some { scroll_top := 0, client_height := 600 } }
      { items := [1, 2, 3], row_height := 32, cssClass := ["b"] } =
    ({ props := { items := [1, 2, 3], row_height := 32, cssClass := ["b"] },
       viewport_height := 600,
       content_window := none,
       viewportEl := some { scroll_top := 0, client_height := 600 } },
      true,
      [Msg.CalculateWindowContent]) :=
  c7_change_always_recomputes _ _ (by decide)

/-- Claim C10. When the incoming props are equal (by the derived
`PartialEq`) to the stored props, `VirtualScroller::change` is a no-op:
it returns `false`, sends no message, and leaves the whole component
state unchanged. -/
theorem c10_change_noop {T : Type} [DecidableEq T]
    (s : ScrollerState T) (p : Props T) (h : s.props = p) :
    change s p = (s, false, []) := by
  rw [change, if_neg]
  simp [h]

/-- Witness for `c10_change_noop` at a concrete state with identical
incoming props. -/
theorem c10_witness :
    change (T := Nat)
      { props := { items := [1, 2, 3], row_height := 32, cssClass := ["a"] },
        viewport_height := 600,
        content_window := none,
        viewportEl := some { scroll_top := 0, client_height := 600 } }
      { items := [1, 2, 3], row_height := 32, cssClass := ["a"] } =
    ({ props := { items := [1, 2, 3], row_height := 32, cssClass := ["a"] },
       viewport_height := 600,
       content_window := none,
       viewportEl := some { scroll_top := 0, client_height := 600 } },
      false, []) :=
  c10_change_noop _ _ rfl

/-- Claim C3. For valid inputs — `scroll_top ≥ 0` bounded by the total
scrollable height `itemCount * rowHeight`, `viewportHeight ≥ 0`,
`rowHeight > 0` — `Msg::CalculateWindowContent` succeeds and the computed
window satisfies `0 ≤ startIndex ≤ endIndex ≤ itemCount`. -/
theorem c3_window_bounds (t : Int) (vh rh : ℚ) (len : Nat)
    (h0 : 0 ≤ t) (h1 : 0 ≤ vh) (h2 : 0 < rh)
    (h3 : (t : ℚ) ≤ (len : ℚ) * rh) :
    ∃ cw, calculateWindowContent t vh rh len = Except.ok cw ∧
      cw.visible_start ≤ cw.visible_end ∧ cw.visible_end ≤ len := by
  have hdiv : (t : ℚ) / rh ≤ ((len : Int) : ℚ) := by
    rw [div_le_iff₀ h2]
    exact_mod_cast h3
  have hfl : ⌊(t : ℚ) / rh⌋ ≤ (len : Int) := by
    calc ⌊(t : ℚ) / rh⌋ ≤ ⌊((len : Int) : ℚ)⌋ := Int.floor_mono hdiv
      _ = (len : Int) := Int.floor_intCast _
  have hsn : startNode t rh 0 ≤ len := by
    rw [startNode_zero_padding]
    omega
  refine ⟨_, calculateWindowContent_ok t vh rh len hsn, ?_, ?_⟩
  · exact Nat.le_add_right _ _
  · dsimp only
    omega

/-- Witness for `c3_window_bounds` at scenario B of the spec
(`itemCount = 20000`, `rowHeight = 32`, `viewportHeight = 600`,
`scrollOffset = 3200`). -/
theorem c3_witness :
    ∃ cw, calculateWindowContent 3200 600 32 20000 = Except.ok cw ∧
      cw.visible_start ≤ cw.visible_end ∧ cw.visible_end ≤ 20000 :=
  c3_window_bounds 3200 600 32 20000 (by decide) (by decide) (by decide)
    (by norm_num)

/-- Claim C2, counterexample. The claim quantifies over every
`scrollOffset ≥ 0` without bounding it by the item count. At
`scrollOffset = 3200`, `viewportHeight = 600`, `rowHeight = 32`,
`itemCount = 5`, the code produces no window at all (the `usize`
subtraction underflows), while the spec reference formula yields a
definite window with `visibleCount = min(19, 5 - 100) = -95`; the two do
not agree. -/
theorem c2_counterexample :
    calculateWindowContent 3200 600 32 5 = Except.error Panic.usizeUnderflow ∧
    (specWindow 3200 600 32 5).visibleCount = -95 := by
  have hq : ⌊(3200 : ℚ) / 32⌋ = 100 := by
    rw [Int.floor_eq_iff]; norm_num
  have hc : ⌈(600 : ℚ) / 32⌉ = 19 := by
    rw [Int.ceil_eq_iff]; norm_num
  constructor
  · refine calculateWindowContent_underflow 3200 600 32 5 ?_
    have hfl : ⌊((3200 : Int) : ℚ) / 32⌋ = 100 := by
      rw [show ((3200 : Int) : ℚ) = 3200 by norm_num, hq]
    rw [startNode_zero_padding, hfl]
    norm_num
  · show min ⌈(600 : ℚ) / 32⌉ ((5 : Int) - max 0 ⌊(3200 : ℚ) / 32⌋) = -95
    rw [hq, hc]
    decide

/-- Claim C2, amended. Under the additional hypothesis that the scroll
position does not point past the end of the list
(`floor(scrollOffset / rowHeight) ≤ itemCount`), the window computed by
`Msg::CalculateWindowContent` (with `padding = 0`) equals the reference
definition of the spec, and the spacer height computed in `view` equals
`itemCount * rowHeight`. -/
theorem c2_window_matches_spec (t : Int) (vh rh : ℚ) (len : Nat)
    (h0 : 0 ≤ t) (h1 : 0 ≤ vh) (h2 : 0 < rh)
    (h4 : ⌊(t : ℚ) / rh⌋ ≤ (len : Int)) :
    ∃ cw, calculateWindowContent t vh rh len = Except.ok cw ∧
      (cw.visible_start : Int) = (specWindow (t : ℚ) vh rh len).startIndex ∧
      (cw.visible_end : Int) = (specWindow (t : ℚ) vh rh len).endIndex ∧
      cw.start_y = (specWindow (t : ℚ) vh rh len).startY ∧
      totalContentHeight len rh = (specWindow (t : ℚ) vh rh len).totalHeight := by
  have hF0 : 0 ≤ ⌊(t : ℚ) / rh⌋ :=
    Int.floor_nonneg.mpr (div_nonneg (by exact_mod_cast h0) h2.le)
  have hC0 : 0 ≤ ⌈vh / rh⌉ := Int.ceil_nonneg (div_nonneg h1 h2.le)
  have hsn : startNode t rh 0 ≤ len := by
    rw [startNode_zero_padding]
    omega
  refine ⟨_, calculateWindowContent_ok t vh rh len hsn, ?_, ?_, ?_, ?_⟩
  · simp only [specWindow, startNode_zero_padding]
    omega
  · simp only [specWindow, startNode_zero_padding]
    omega
  · simp only [specWindow, startNode_zero_padding]
    have hmax : ((⌊(t : ℚ) / rh⌋.toNat : Nat) : Int) = max 0 ⌊(t : ℚ) / rh⌋ := by
      omega
    have hq : ((⌊(t : ℚ) / rh⌋.toNat : Nat) : ℚ) =
        ((max 0 ⌊(t : ℚ) / rh⌋ : Int) : ℚ) := by
      exact_mod_cast congrArg Int.cast hmax
    rw [hq]
  · simp only [specWindow, totalContentHeight]

/-- Witness for `c2_window_matches_spec` at scenario B of the spec
(`itemCount = 20000`, `rowHeight = 32`, `viewportHeight = 600`,
`scrollOffset = 3200`). -/
theorem c2_witness :
    ∃ cw, calculateWindowContent 3200 600 32 20000 = Except.ok cw ∧
      (cw.visible_start : Int) =
        (specWindow ((3200 : Int) : ℚ) 600 32 20000).startIndex ∧
      (cw.visible_end : Int) =
        (specWindow ((3200 : Int) : ℚ) 600 32 20000).endIndex ∧
      cw.start_y = (specWindow ((3200 : Int) : ℚ) 600 32 20000).startY ∧
      totalContentHeight 20000 32 =
        (specWindow ((3200 : Int) : ℚ) 600 32 20000).totalHeight :=
  c2_window_matches_spec 3200 600 32 20000 (by decide) (by decide) (by decide)
    (by rw [show ((3200 : Int) : ℚ) = 3200 by norm_num,
          show ⌊(3200 : ℚ) / 32⌋ = 100 from by rw [Int.floor_eq_iff]; norm_num]
        decide)

/-- Claim C8. Boundary behavior of `Msg::CalculateWindowContent`: at
`scrollOffset = 0` the window starts at index 0, and at the maximum
scroll position `scrollOffset = itemCount * rowHeight - viewportHeight`
(with `viewportHeight ≤ itemCount * rowHeight`) the window ends exactly
at `itemCount`. The zero-offset conjunct holds for every
`viewportHeight ≥ 0`, `rowHeight > 0` and `itemCount ≥ 0`; the two
max-scroll conditions are hypotheses of the second conjunct only. -/
theorem c8_boundaries (vh rh : ℚ) (len : Nat) (t : Int)
    (h1 : 0 ≤ vh) (h2 : 0 < rh) :
    (∃ cw, calculateWindowContent 0 vh rh len = Except.ok cw ∧
       cw.visible_start = 0) ∧
    ((t : ℚ) = (len : ℚ) * rh - vh → vh ≤ (len : ℚ) * rh →
      ∃ cw, calculateWindowContent t vh rh len = Except.ok cw ∧
        cw.visible_end = len) := by
  constructor
  · have hsn0 : startNode 0 rh 0 = 0 := by
      rw [startNode_zero_padding]
      norm_num
    refine ⟨_, calculateWindowContent_ok 0 vh rh len (by omega), ?_⟩
    exact hsn0
  · intro hmax hvle
    have hC0 : 0 ≤ ⌈vh / rh⌉ := Int.ceil_nonneg (div_nonneg h1 h2.le)
    have hCle : ⌈vh / rh⌉ ≤ (len : Int) := by
      have hdle : vh / rh ≤ ((len : Int) : ℚ) := by
        rw [div_le_iff₀ h2]
        exact_mod_cast hvle
      calc ⌈vh / rh⌉ ≤ ⌈((len : Int) : ℚ)⌉ := Int.ceil_mono hdle
        _ = (len : Int) := Int.ceil_intCast _
    have hFeq : ⌊(t : ℚ) / rh⌋ = (len : Int) - ⌈vh / rh⌉ := by
      have hdiv : (t : ℚ) / rh = ((len : Int) : ℚ) + -(vh / rh) := by
        rw [hmax, sub_div, mul_div_cancel_right₀ _ h2.ne']
        push_cast
        ring
      rw [hdiv, Int.floor_int_add, Int.floor_neg, sub_eq_add_neg]
    have hsn : startNode t rh 0 ≤ len := by
      rw [startNode_zero_padding, hFeq]
      omega
    refine ⟨_, calculateWindowContent_ok t vh rh len hsn, ?_⟩
    dsimp only
    rw [startNode_zero_padding, hFeq]
    omega

/-- Witness for `c8_boundaries`: the zero-offset conjunct at scenario C
of the spec (`itemCount = 5`, `rowHeight = 32`, `viewportHeight = 600`,
viewport taller than the content), and the max-scroll conjunct with
`itemCount = 5`, `rowHeight = 32`, `viewportHeight = 96`, maximum scroll
offset `160 - 96 = 64`. -/
theorem c8_witness :
    (∃ cw, calculateWindowContent 0 600 32 5 = Except.ok cw ∧
       cw.visible_start = 0) ∧
    (∃ cw, calculateWindowContent 64 96 32 5 = Except.ok cw ∧
       cw.visible_end = 5) :=
  ⟨(c8_boundaries 600 32 5 0 (by decide) (by decide)).1,
   (c8_boundaries 96 32 5 64 (by decide) (by decide)).2 (by norm_num) (by norm_num)⟩

/-- Claim C9. The `start_node` expression of `Msg::CalculateWindowContent`
is monotone non-decreasing in the scroll offset when the row height and
the other inputs are held fixed. -/
theorem c9_startNode_monotone (s1 s2 : Int) (rh : ℚ)
    (h2 : 0 < rh) (h : s1 ≤ s2) :
    startNode s1 rh 0 ≤ startNode s2 rh 0 := by
  have hdiv : (s1 : ℚ) / rh ≤ (s2 : ℚ) / rh := by
    rw [div_le_div_iff_of_pos_right h2]
    exact_mod_cast h
  have hfl := Int.floor_mono hdiv
  rw [startNode_zero_padding, startNode_zero_padding]
  omega

/-- Witness for `c9_startNode_monotone` at scroll offsets 0 and 3200 with
`rowHeight = 32`. -/
theorem c9_witness : startNode 0 32 0 ≤ startNode 3200 32 0 :=
  c9_startNode_monotone 0 3200 32 (by decide) (by decide)

end VirtualScroller
